import Mathlib

/-!
Shallow embedding of the semantic-analysis pass in
`sway-core/src/semantic_analysis/ast_node/declaration/function.rs`:
`TyFunctionDecl::type_check`, `unify_return_statements`, and the selector
encoding exercised by `test_function_selector_behavior`.

External collaborators (the type engine resolution, the parameter and
code-block checkers, the snake-case predicate, abi mode) are abstracted as
oracles in an `Env` record; the diagnostic sink (`Handler`) is threaded
explicitly, with tickets (`ErrorEmitted`) identified by the index of the
emission that produced them, so that statements about which recorded ticket
is re-raised are expressible.
-/

/-- Source spans are opaque here; only identity matters. -/
abbrev Span := Nat

/-- An identifier: the string (`as_str` in the source) plus its span. -/
structure Ident where
  as_str : String
  span : Span
deriving DecidableEq, Repr

/-- Attribute maps are opaque payloads carried through unchanged. -/
abbrev AttributesMap := Nat

/-- Purity marker of a function declaration. -/
inductive Purity where
  | Pure
  | Reads
  | Writes
  | ReadsWrites
deriving DecidableEq, Repr

/-- Declared visibility. -/
inductive Visibility where
  | Private
  | Public
deriving DecidableEq, Repr

/-- ABI mode of the surrounding scope: inside an abi impl block or not. -/
inductive AbiMode where
  | ImplAbiFn (name : Ident)
  | NonAbi
deriving DecidableEq, Repr

/-- Mirrors `matches!(ctx.abi_mode(), AbiMode::ImplAbiFn(..))`. -/
def AbiMode.is_impl_abi_fn : AbiMode → Bool
  | .ImplAbiFn _ => true
  | .NonAbi => false

/-- Explicit bit width of an unsigned integer type. -/
inductive IntegerBits where
  | Eight
  | Sixteen
  | ThirtyTwo
  | SixtyFour
deriving DecidableEq, Repr

/-- Interned type identifiers: indices into the type engine arena. -/
abbrev TypeId := Nat

/-- Type descriptors, restricted to the kinds the claims exercise, plus
the `ErrorRecovery` sentinel. -/
inductive TypeInfo where
  | UnsignedInteger (bits : IntegerBits)
  | Str (len : Nat)
  | Boolean
  | ErrorRecovery
deriving DecidableEq, Repr

/-- The type engine arena of descriptors, indexed by `TypeId`. -/
abbrev Engine := List TypeInfo

/-- Mirrors `type_engine.insert(engines, info)`: appends and returns the
fresh identifier. -/
def Engine.insert (eng : Engine) (info : TypeInfo) : Engine × TypeId :=
  (eng ++ [info], eng.length)

/-- A type argument: resolved identifier, initial (surface-syntax)
identifier, and span. -/
structure TypeArgument where
  type_id : TypeId
  initial_type_id : TypeId
  span : Span
deriving DecidableEq, Repr

/-- Compile errors. `Unimplemented` mirrors the structural nesting error;
`Other` stands for any diagnostic payload produced by a collaborator. -/
inductive CompileError where
  | Unimplemented (msg : String) (span : Span)
  | Other (code : Nat)
deriving DecidableEq, Repr

/-- Warning payloads. -/
inductive Warning where
  | NonSnakeCaseFunctionName (name : Ident)
  | Other (code : Nat)
deriving DecidableEq, Repr

/-- A warning with its span, as pushed into the sink. -/
structure CompileWarning where
  span : Span
  warning_content : Warning
deriving DecidableEq, Repr

/-- A diagnostic ticket: proof that an error was recorded. It is identified
by the position the emitted error took in the sink, so first and last
recorded tickets are distinguishable. -/
structure ErrorEmitted where
  idx : Nat
deriving DecidableEq, Repr

/-- The diagnostic sink: append-only error and warning logs. -/
structure Handler where
  errors : List CompileError := []
  warnings : List CompileWarning := []
deriving DecidableEq, Repr

/-- Mirrors `handler.emit_err(e)`: record and return the ticket. -/
def Handler.emit_err (h : Handler) (e : CompileError) : Handler × ErrorEmitted :=
  ({ h with errors := h.errors ++ [e] }, ⟨h.errors.length⟩)

/-- Mirrors `handler.emit_warn(w)`. -/
def Handler.emit_warn (h : Handler) (w : CompileWarning) : Handler :=
  { h with warnings := h.warnings ++ [w] }

/-- Untyped function parameters are opaque; the parameter checker is an
oracle over them. -/
abbrev FunctionParameter := Nat

/-- Untyped generic type parameters are opaque. -/
abbrev TypeParameter := Nat

/-- Typed generic type parameters are opaque. -/
abbrev TyTypeParameter := Nat

/-- The untyped body is opaque; the code-block checker is an oracle. -/
abbrev CodeBlock := Nat

/-- Typed AST nodes are opaque; gathering return statements is an oracle. -/
abbrev TyAstNode := Nat

/-- A typed code block. -/
structure TyCodeBlock where
  contents : List TyAstNode
deriving DecidableEq, Repr

/-- The part of a typed expression that return-statement unification
reads: its type and its span. -/
structure TyExpression where
  return_type : TypeId
  span : Span
deriving DecidableEq, Repr

/-- A typed function parameter. -/
structure TyFunctionParameter where
  name : Ident
  is_reference : Bool
  is_mutable : Bool
  mutability_span : Span
  type_argument : TypeArgument
deriving DecidableEq, Repr

/-- The untyped function declaration consumed by `type_check`. -/
structure FunctionDeclaration where
  name : Ident
  body : CodeBlock
  parameters : List FunctionParameter
  span : Span
  attributes : AttributesMap
  return_type : TypeArgument
  type_parameters : List TypeParameter
  visibility : Visibility
  purity : Purity
  where_clause : List Nat
deriving DecidableEq, Repr

/-- The typed function declaration produced by `type_check`. -/
structure TyFunctionDecl where
  name : Ident
  body : TyCodeBlock
  parameters : List TyFunctionParameter
  implementing_type : Option Nat
  span : Span
  attributes : AttributesMap
  return_type : TypeArgument
  type_parameters : List TyTypeParameter
  visibility : Visibility
  is_contract_call : Bool
  purity : Purity
  where_clause : List Nat
deriving DecidableEq, Repr

/-- Observable effects of the checking pipeline, in the order the source
performs them; used to state that a stage did or did not run. -/
inductive Event where
  | scope_created
  | type_params_checked
  | param_checked
  | return_type_resolved
  | body_checked
  | returns_unified
  | bounds_checked
deriving DecidableEq, Repr

/-- Oracles for the external collaborators of `type_check`: scope flags,
the generic-parameter binder, the parameter checker, return-type
resolution, the code-block checker, return-statement gathering,
unification, and the bounds check. A fallible oracle answering with an
error payload means the collaborator records that diagnostic and returns
the ticket of that emission. -/
structure Env where
  functions_disallowed : Bool
  is_snake_case : String → Bool
  abi_mode : AbiMode
  type_params_result : Except CompileError (List TyTypeParameter)
  param_result : FunctionParameter → Except CompileError TyFunctionParameter
  resolve_result : Except CompileError TypeId
  body_result : Except CompileError (TyCodeBlock × TypeId)
  gather_return_statements : TyAstNode → List TyExpression
  unify_with_self : TyExpression → TypeId → List CompileWarning × List CompileError
  bounds_result : Except CompileError Unit

/-- Mirrors the parameter loop of `type_check` (lines 72 to 84): push the
typed value on success; on failure, record and remember the ticket
(overwriting any earlier one) and continue. -/
def check_parameters_loop (env : Env) :
    List FunctionParameter → Handler → List TyFunctionParameter →
    Option ErrorEmitted → Handler × List TyFunctionParameter × Option ErrorEmitted
  | [], h, acc, e => (h, acc, e)
  | p :: rest, h, acc, e =>
    match env.param_result p with
    | .ok val => check_parameters_loop env rest h (acc ++ [val]) e
    | .error ce =>
      let he := h.emit_err ce
      check_parameters_loop env rest he.1 acc (some he.2)

/-- Emit every warning in order. -/
def emit_all_warnings : Handler → List CompileWarning → Handler
  | h, [] => h
  | h, w :: rest => emit_all_warnings (h.emit_warn w) rest

/-- Emit every error in order, each emission overwriting the remembered
ticket. -/
def emit_all_errors : Handler → List CompileError → Option ErrorEmitted →
    Handler × Option ErrorEmitted
  | h, [], e => (h, e)
  | h, ce :: rest, _ =>
    let he := h.emit_err ce
    emit_all_errors he.1 rest (some he.2)

/-- Mirrors the statement loop of `unify_return_statements` (lines 180 to
196): unify each gathered statement against the declared return type, emit
all warnings, emit all errors remembering the last ticket. -/
def unify_return_statements_loop (env : Env) (return_type : TypeId) :
    List TyExpression → Handler → Option ErrorEmitted →
    Handler × Option ErrorEmitted
  | [], h, e => (h, e)
  | stmt :: rest, h, e =>
    let we := env.unify_with_self stmt return_type
    let h1 := emit_all_warnings h we.1
    let he := emit_all_errors h1 we.2 e
    unify_return_statements_loop env return_type rest he.1 he.2

/-- Mirrors `unify_return_statements` (lines 170 to 202). -/
def unify_return_statements (env : Env) (h : Handler)
    (return_statements : List TyExpression) (return_type : TypeId) :
    Handler × Except ErrorEmitted Unit :=
  let he := unify_return_statements_loop env return_type return_statements h none
  match he.2 with
  | some t => (he.1, .error t)
  | none => (he.1, .ok ())

instance {ε α : Type} [DecidableEq ε] [DecidableEq α] : DecidableEq (Except ε α) := fun x y =>
  match x, y with
  | .ok a, .ok b =>
    if h : a = b then .isTrue (by rw [h]) else .isFalse (by simp [h])
  | .error a, .error b =>
    if h : a = b then .isTrue (by rw [h]) else .isFalse (by simp [h])
  | .ok _, .error _ => .isFalse (by simp)
  | .error _, .ok _ => .isFalse (by simp)

/-- Result of `type_check`: final sink, final engine, effect trace, and
either a ticket or the typed declaration. -/
structure CheckOut where
  handler : Handler
  engine : Engine
  trace : List Event
  res : Except ErrorEmitted TyFunctionDecl
deriving DecidableEq, Repr

/-- Mirrors `TyFunctionDecl::type_check` (lines 18 to 165), stage by
stage: structural nesting check, snake-case warning, scoping, generic
binding, parameter loop with deferred abort, return-type resolution with
ErrorRecovery fallback, body check with empty-body fallback, gathering and
unifying return statements, visibility and abi classification, bounds
check, construction of the typed declaration. -/
def TyFunctionDecl.type_check (env : Env) (handler : Handler) (eng : Engine)
    (fn_decl : FunctionDeclaration) (is_method : Bool) (is_in_impl_self : Bool) :
    CheckOut :=
  if env.functions_disallowed then
    let he := handler.emit_err
      (.Unimplemented "Nested function definitions are not allowed at this time." fn_decl.span)
    ⟨he.1, eng, [], .error he.2⟩
  else
    let h1 :=
      if env.is_snake_case fn_decl.name.as_str then handler
      else handler.emit_warn ⟨fn_decl.name.span, .NonSnakeCaseFunctionName fn_decl.name⟩
    match env.type_params_result with
    | .error ce =>
      let he := h1.emit_err ce
      ⟨he.1, eng, [.scope_created, .type_params_checked], .error he.2⟩
    | .ok new_type_parameters =>
      let ple := check_parameters_loop env fn_decl.parameters h1 [] none
      let tr := [Event.scope_created, Event.type_params_checked] ++
        fn_decl.parameters.map (fun _ => Event.param_checked)
      match ple.2.2 with
      | some err => ⟨ple.1, eng, tr, .error err⟩
      | none =>
        let her : Handler × Engine × TypeId :=
          match env.resolve_result with
          | .ok tid => (ple.1, eng, tid)
          | .error ce =>
            let he := ple.1.emit_err ce
            let ei := Engine.insert eng .ErrorRecovery
            (he.1, ei.1, ei.2)
        let return_type : TypeArgument :=
          { fn_decl.return_type with type_id := her.2.2 }
        let hbb : Handler × Engine × TyCodeBlock :=
          match env.body_result with
          | .ok bi => (her.1, her.2.1, bi.1)
          | .error ce =>
            let he := her.1.emit_err ce
            let ei := Engine.insert her.2.1 .ErrorRecovery
            (he.1, ei.1, ⟨[]⟩)
        let body := hbb.2.2
        let return_statements :=
          (body.contents.map env.gather_return_statements).flatten
        let hu := unify_return_statements env hbb.1 return_statements return_type.type_id
        let tr := tr ++ [Event.return_type_resolved, Event.body_checked, Event.returns_unified]
        match hu.2 with
        | .error t => ⟨hu.1, hbb.2.1, tr, .error t⟩
        | .ok _ =>
          let vis_call : Visibility × Bool :=
            if is_method then
              if is_in_impl_self then (fn_decl.visibility, false)
              else (.Public, false)
            else (fn_decl.visibility, env.abi_mode.is_impl_abi_fn)
          match env.bounds_result with
          | .error ce =>
            let he := hu.1.emit_err ce
            ⟨he.1, hbb.2.1, tr ++ [.bounds_checked], .error he.2⟩
          | .ok _ =>
            ⟨hu.1, hbb.2.1, tr ++ [.bounds_checked],
              .ok { name := fn_decl.name
                    body := body
                    parameters := ple.2.1
                    implementing_type := none
                    span := fn_decl.span
                    attributes := fn_decl.attributes
                    return_type := return_type
                    type_parameters := new_type_parameters
                    visibility := vis_call.1
                    is_contract_call := vis_call.2
                    purity := fn_decl.purity
                    where_clause := fn_decl.where_clause }⟩

/-- Modelled from the spec: the bit-width suffix of an unsigned integer
encoding; the selector encoder itself is not part of the sources here,
only its test is, so it is reconstructed from section 4.6 of the spec. -/
def bits_str : IntegerBits → String
  | .Eight => "8"
  | .Sixteen => "16"
  | .ThirtyTwo => "32"
  | .SixtyFour => "64"

/-- Modelled from the spec: encoding of a single resolved type descriptor,
per section 4.6 — unsigned integers as u followed by the bit width,
fixed-length strings as str with the length in square brackets; an
`ErrorRecovery` descriptor signals an encoding failure. -/
def type_str : TypeInfo → Except CompileError String
  | .UnsignedInteger bits => .ok ("u" ++ bits_str bits)
  | .Str len => .ok ("str[" ++ toString len ++ "]")
  | .Boolean => .ok "bool"
  | .ErrorRecovery => .error (.Other 0)

/-- Modelled from the spec: encode the parameter list left to right,
looking each parameter up by its resolved type identifier only. -/
def params_types (eng : Engine) : List TyFunctionParameter → Except CompileError (List String)
  | [] => .ok []
  | p :: rest =>
    match type_str (eng.getD p.type_argument.type_id .ErrorRecovery),
        params_types eng rest with
    | .ok s, .ok ss => .ok (s :: ss)
    | .error e, _ => .error e
    | .ok _, .error e => .error e

/-- Modelled from the spec: `to_selector_name` is absent from the sources
(only its unit test is present); per sections 4.6 and 6 it produces
the canonical string name(t1,t2,...) from the resolved parameter types. -/
def to_selector_name (eng : Engine) (decl : TyFunctionDecl) : Except CompileError String :=
  match params_types eng decl.parameters with
  | .ok ts => .ok (decl.name.as_str ++ "(" ++ String.intercalate "," ts ++ ")")
  | .error e => .error e

/-- Rewrite one parameter to an arbitrary initial type identifier,
leaving its resolved identifier untouched. -/
def set_initial_type_id (f : TyFunctionParameter → TypeId) (p : TyFunctionParameter) :
    TyFunctionParameter :=
  { p with type_argument := { p.type_argument with initial_type_id := f p } }

/-- Rewrite every parameter of a declaration to an arbitrary initial type
identifier, leaving the resolved identifiers untouched. -/
def set_initial_type_ids (f : TyFunctionParameter → TypeId) (d : TyFunctionDecl) : TyFunctionDecl :=
  { d with parameters := d.parameters.map (set_initial_type_id f) }

/-- Error payloads of the failing parameters, in order. -/
def param_errs (env : Env) (ps : List FunctionParameter) : List CompileError :=
  ps.filterMap (fun p =>
    match env.param_result p with
    | .ok _ => none
    | .error ce => some ce)

/-- Typed values of the succeeding parameters, in order. -/
def param_oks (env : Env) (ps : List FunctionParameter) : List TyFunctionParameter :=
  ps.filterMap (fun p =>
    match env.param_result p with
    | .ok v => some v
    | .error _ => none)

/-- All unification error payloads over a statement list, in order. -/
def unify_errs (env : Env) (rt : TypeId) (stmts : List TyExpression) : List CompileError :=
  (stmts.map (fun s => (env.unify_with_self s rt).2)).flatten

/-- All unification warnings over a statement list, in order. -/
def unify_warns (env : Env) (rt : TypeId) (stmts : List TyExpression) : List CompileWarning :=
  (stmts.map (fun s => (env.unify_with_self s rt).1)).flatten

/-- The return-type identifier `type_check` ends up with: the resolved one
on success, a freshly interned `ErrorRecovery` identifier on failure. -/
def resolved_return_id (env : Env) (eng : Engine) : TypeId :=
  match env.resolve_result with
  | .ok tid => tid
  | .error _ => eng.length

/-- The body `type_check` ends up with: the checked block on success, the
empty block on failure. -/
def checked_body (env : Env) : TyCodeBlock :=
  match env.body_result with
  | .ok bi => bi.1
  | .error _ => ⟨[]⟩

theorem emit_all_warnings_eq (l : List CompileWarning) (h : Handler) :
    emit_all_warnings h l = { h with warnings := h.warnings ++ l } := by
  induction l generalizing h with
  | nil => simp [emit_all_warnings]
  | cons w rest ih =>
    simp [emit_all_warnings, Handler.emit_warn, ih, List.append_assoc]
theorem param_errs_cons_ok (env : Env) (p : FunctionParameter)
    (rest : List FunctionParameter) (v : TyFunctionParameter)
    (hp : env.param_result p = .ok v) :
    param_errs env (p :: rest) = param_errs env rest := by
  simp [param_errs, List.filterMap_cons, hp]

theorem param_errs_cons_error (env : Env) (p : FunctionParameter)
    (rest : List FunctionParameter) (ce : CompileError)
    (hp : env.param_result p = .error ce) :
    param_errs env (p :: rest) = ce :: param_errs env rest := by
  simp [param_errs, List.filterMap_cons, hp]

theorem param_oks_cons_ok (env : Env) (p : FunctionParameter)
    (rest : List FunctionParameter) (v : TyFunctionParameter)
    (hp : env.param_result p = .ok v) :
    param_oks env (p :: rest) = v :: param_oks env rest := by
  simp [param_oks, List.filterMap_cons, hp]

theorem param_oks_cons_error (env : Env) (p : FunctionParameter)
    (rest : List FunctionParameter) (ce : CompileError)
    (hp : env.param_result p = .error ce) :
    param_oks env (p :: rest) = param_oks env rest := by
  simp [param_oks, List.filterMap_cons, hp]

theorem emit_all_errors_eq (l : List CompileError) (h : Handler) (e : Option ErrorEmitted) :
    emit_all_errors h l e =
      ({ h with errors := h.errors ++ l },
       if l = [] then e else some ⟨h.errors.length + l.length - 1⟩) := by
  induction l generalizing h e with
  | nil => simp [emit_all_errors]
  | cons ce rest ih =>
    show emit_all_errors (h.emit_err ce).1 rest (some (h.emit_err ce).2) = _
    rw [ih]
    by_cases hre : rest = []
    · subst hre
      simp [Handler.emit_err]
    · simp only [Handler.emit_err, if_neg hre, if_neg (List.cons_ne_nil ce rest),
        Prod.mk.injEq, Option.some.injEq, ErrorEmitted.mk.injEq]
      refine ⟨by simp, ?_⟩
      simp only [List.length_append, List.length_cons, List.length_nil]
      omega

theorem check_parameters_loop_eq (env : Env) (ps : List FunctionParameter)
    (h : Handler) (acc : List TyFunctionParameter) (e : Option ErrorEmitted) :
    check_parameters_loop env ps h acc e =
      ({ h with errors := h.errors ++ param_errs env ps },
       acc ++ param_oks env ps,
       if param_errs env ps = [] then e
       else some ⟨h.errors.length + (param_errs env ps).length - 1⟩) := by
  induction ps generalizing h acc e with
  | nil => simp [check_parameters_loop, param_errs, param_oks]
  | cons p rest ih =>
    cases hp : env.param_result p with
    | ok v =>
      rw [show check_parameters_loop env (p :: rest) h acc e =
          check_parameters_loop env rest h (acc ++ [v]) e from by
        simp [check_parameters_loop, hp]]
      rw [ih, param_errs_cons_ok env p rest v hp, param_oks_cons_ok env p rest v hp]
      simp
    | error ce =>
      rw [show check_parameters_loop env (p :: rest) h acc e =
          check_parameters_loop env rest { h with errors := h.errors ++ [ce] } acc
            (some ⟨h.errors.length⟩) from by
        simp [check_parameters_loop, hp, Handler.emit_err]]
      rw [ih, param_errs_cons_error env p rest ce hp, param_oks_cons_error env p rest ce hp]
      by_cases hre : param_errs env rest = []
      · simp [hre]
      · simp only [if_neg hre, if_neg (List.cons_ne_nil ce (param_errs env rest)),
          Prod.mk.injEq, Option.some.injEq, ErrorEmitted.mk.injEq]
        refine ⟨by simp, by simp, ?_⟩
        simp only [List.length_append, List.length_cons, List.length_nil]
        omega

theorem unify_errs_cons (env : Env) (rt : TypeId) (s : TyExpression)
    (rest : List TyExpression) :
    unify_errs env rt (s :: rest) =
      (env.unify_with_self s rt).2 ++ unify_errs env rt rest := by
  simp [unify_errs]

theorem unify_warns_cons (env : Env) (rt : TypeId) (s : TyExpression)
    (rest : List TyExpression) :
    unify_warns env rt (s :: rest) =
      (env.unify_with_self s rt).1 ++ unify_warns env rt rest := by
  simp [unify_warns]

theorem unify_return_statements_loop_eq (env : Env) (rt : TypeId)
    (stmts : List TyExpression) (h : Handler) (e : Option ErrorEmitted) :
    unify_return_statements_loop env rt stmts h e =
      ({ errors := h.errors ++ unify_errs env rt stmts,
         warnings := h.warnings ++ unify_warns env rt stmts },
       if unify_errs env rt stmts = [] then e
       else some ⟨h.errors.length + (unify_errs env rt stmts).length - 1⟩) := by
  induction stmts generalizing h e with
  | nil => simp [unify_return_statements_loop, unify_errs, unify_warns]
  | cons s rest ih =>
    have hstep : unify_return_statements_loop env rt (s :: rest) h e =
        unify_return_statements_loop env rt rest
          ({ errors := h.errors ++ (env.unify_with_self s rt).2,
             warnings := h.warnings ++ (env.unify_with_self s rt).1 })
          (if (env.unify_with_self s rt).2 = [] then e
           else some ⟨h.errors.length + (env.unify_with_self s rt).2.length - 1⟩) := by
      simp only [unify_return_statements_loop]
      rw [emit_all_warnings_eq, emit_all_errors_eq]
    rw [hstep, ih, unify_errs_cons, unify_warns_cons]
    by_cases hes : (env.unify_with_self s rt).2 = []
    · simp [hes]
    · by_cases hrest : unify_errs env rt rest = []
      · simp [hes, hrest]
      · have happ : (env.unify_with_self s rt).2 ++ unify_errs env rt rest ≠ [] := by
          simp [hes]
        simp only [if_neg hes, if_neg hrest, if_neg happ, Prod.mk.injEq,
          Handler.mk.injEq, Option.some.injEq, ErrorEmitted.mk.injEq]
        refine ⟨⟨by simp, by simp⟩, ?_⟩
        simp only [List.length_append]
        omega

theorem unify_return_statements_eq (env : Env) (h : Handler)
    (stmts : List TyExpression) (rt : TypeId) :
    unify_return_statements env h stmts rt =
      ({ errors := h.errors ++ unify_errs env rt stmts,
         warnings := h.warnings ++ unify_warns env rt stmts },
       if unify_errs env rt stmts = [] then Except.ok ()
       else Except.error ⟨h.errors.length + (unify_errs env rt stmts).length - 1⟩) := by
  simp only [unify_return_statements]
  rw [unify_return_statements_loop_eq]
  by_cases hne : unify_errs env rt stmts = [] <;> simp [hne]

theorem unify_errs_eq_nil (env : Env) (rt : TypeId) (stmts : List TyExpression)
    (hu : ∀ st, (env.unify_with_self st rt).2 = []) :
    unify_errs env rt stmts = [] := by
  induction stmts with
  | nil => simp [unify_errs]
  | cons st rest ih => rw [unify_errs_cons, hu, ih]; rfl

/-- The errors the return-type resolution stage records: none on success,
the resolution diagnostic on failure. -/
def resolve_err_list (env : Env) : List CompileError :=
  match env.resolve_result with
  | .ok _ => []
  | .error ce => [ce]

/-- The errors the body-check stage records. -/
def body_err_list (env : Env) : List CompileError :=
  match env.body_result with
  | .ok _ => []
  | .error ce => [ce]

/-- The descriptors the return-type resolution stage interns. -/
def resolve_engine_list (env : Env) : List TypeInfo :=
  match env.resolve_result with
  | .ok _ => []
  | .error _ => [.ErrorRecovery]

/-- The descriptors the body-check stage interns. -/
def body_engine_list (env : Env) : List TypeInfo :=
  match env.body_result with
  | .ok _ => []
  | .error _ => [.ErrorRecovery]

/-- The sink after the snake-case style check. -/
def snake_handler (env : Env) (h : Handler) (fd : FunctionDeclaration) : Handler :=
  if env.is_snake_case fd.name.as_str then h
  else h.emit_warn ⟨fd.name.span, .NonSnakeCaseFunctionName fd.name⟩

/-- Return statements gathered from a typed block, in order. -/
def gathered_returns (env : Env) (b : TyCodeBlock) : List TyExpression :=
  (b.contents.map env.gather_return_statements).flatten

/-- The visibility column of the classification table (lines 132 to 140). -/
def classify_visibility (is_method is_in_impl_self : Bool) (v : Visibility) : Visibility :=
  if is_method then (if is_in_impl_self then v else .Public) else v

/-- The externally callable column of the classification table. -/
def classify_contract_call (is_method : Bool) (am : AbiMode) : Bool :=
  if is_method then false else am.is_impl_abi_fn

/-- The trace of a run that passes the structural and generic stages. -/
def full_trace (fd : FunctionDeclaration) : List Event :=
  [Event.scope_created, Event.type_params_checked] ++
    fd.parameters.map (fun _ => Event.param_checked) ++
    [Event.return_type_resolved, Event.body_checked, Event.returns_unified,
     Event.bounds_checked]

/-- The declaration a fully successful run constructs. -/
def success_decl (env : Env) (eng : Engine) (fd : FunctionDeclaration)
    (is_method is_in_impl_self : Bool) (tps : List TyTypeParameter) : TyFunctionDecl :=
  { name := fd.name
    body := checked_body env
    parameters := param_oks env fd.parameters
    implementing_type := none
    span := fd.span
    attributes := fd.attributes
    return_type := { fd.return_type with type_id := resolved_return_id env eng }
    type_parameters := tps
    visibility := classify_visibility is_method is_in_impl_self fd.visibility
    is_contract_call := classify_contract_call is_method env.abi_mode
    purity := fd.purity
    where_clause := fd.where_clause }

theorem type_check_success_eq (env : Env) (h : Handler) (eng : Engine)
    (fd : FunctionDeclaration) (m s : Bool) (tps : List TyTypeParameter)
    (hdis : env.functions_disallowed = false)
    (htp : env.type_params_result = .ok tps)
    (hpe : param_errs env fd.parameters = [])
    (hu : ∀ st rt, (env.unify_with_self st rt).2 = [])
    (hb : env.bounds_result = .ok ()) :
    TyFunctionDecl.type_check env h eng fd m s =
      ⟨{ errors := (snake_handler env h fd).errors ++ resolve_err_list env ++ body_err_list env,
         warnings := (snake_handler env h fd).warnings ++
           unify_warns env (resolved_return_id env eng) (gathered_returns env (checked_body env)) },
       eng ++ resolve_engine_list env ++ body_engine_list env,
       full_trace fd,
       .ok (success_decl env eng fd m s tps)⟩ := by
  have hue : ∀ rt stmts, unify_errs env rt stmts = [] := fun rt stmts =>
    unify_errs_eq_nil env rt stmts (fun st => hu st rt)
  cases hres : env.resolve_result with
  | ok tid =>
    cases hbody : env.body_result with
    | ok bi =>
      simp only [TyFunctionDecl.type_check, hdis, htp, hpe, hres, hbody, hb,
        check_parameters_loop_eq, unify_return_statements_eq, hue,
        Bool.false_eq_true, if_false, if_true, List.nil_append, List.append_nil,
        snake_handler, resolve_err_list, body_err_list, resolve_engine_list,
        body_engine_list, full_trace, success_decl, checked_body,
        resolved_return_id, gathered_returns, classify_visibility,
        classify_contract_call, Handler.emit_err, Engine.insert]
      simp [List.append_assoc]
      cases m <;> cases s <;> simp
    | error ce =>
      simp only [TyFunctionDecl.type_check, hdis, htp, hpe, hres, hbody, hb,
        check_parameters_loop_eq, unify_return_statements_eq, hue,
        Bool.false_eq_true, if_false, if_true, List.nil_append, List.append_nil,
        snake_handler, resolve_err_list, body_err_list, resolve_engine_list,
        body_engine_list, full_trace, success_decl, checked_body,
        resolved_return_id, gathered_returns, classify_visibility,
        classify_contract_call, Handler.emit_err, Engine.insert]
      simp [List.append_assoc]
      cases m <;> cases s <;> simp
  | error ce =>
    cases hbody : env.body_result with
    | ok bi =>
      simp only [TyFunctionDecl.type_check, hdis, htp, hpe, hres, hbody, hb,
        check_parameters_loop_eq, unify_return_statements_eq, hue,
        Bool.false_eq_true, if_false, if_true, List.nil_append, List.append_nil,
        snake_handler, resolve_err_list, body_err_list, resolve_engine_list,
        body_engine_list, full_trace, success_decl, checked_body,
        resolved_return_id, gathered_returns, classify_visibility,
        classify_contract_call, Handler.emit_err, Engine.insert]
      simp [List.append_assoc]
      cases m <;> cases s <;> simp
    | error ce2 =>
      simp only [TyFunctionDecl.type_check, hdis, htp, hpe, hres, hbody, hb,
        check_parameters_loop_eq, unify_return_statements_eq, hue,
        Bool.false_eq_true, if_false, if_true, List.nil_append, List.append_nil,
        snake_handler, resolve_err_list, body_err_list, resolve_engine_list,
        body_engine_list, full_trace, success_decl, checked_body,
        resolved_return_id, gathered_returns, classify_visibility,
        classify_contract_call, Handler.emit_err, Engine.insert]
      simp [List.append_assoc]
      cases m <;> cases s <;> simp

theorem snake_handler_errors (env : Env) (h : Handler) (fd : FunctionDeclaration) :
    (snake_handler env h fd).errors = h.errors := by
  unfold snake_handler
  split <;> rfl

theorem getElem?_append_cons (l rest : List TypeInfo) (x : TypeInfo) :
    (l ++ x :: rest)[l.length]? = some x := by
  induction l with
  | nil => simp
  | cons y ys ih => simpa using ih

theorem type_check_ok_inv (env : Env) (h : Handler) (eng : Engine)
    (fd : FunctionDeclaration) (m s : Bool) (d : TyFunctionDecl)
    (hok : (TyFunctionDecl.type_check env h eng fd m s).res = .ok d) :
    ∃ tps, env.type_params_result = .ok tps ∧ d = success_decl env eng fd m s tps := by
  by_cases hdis : env.functions_disallowed
  · simp [TyFunctionDecl.type_check, hdis, Handler.emit_err] at hok
  · rw [Bool.not_eq_true] at hdis
    cases htp : env.type_params_result with
    | error ce =>
      simp [TyFunctionDecl.type_check, hdis, htp, Handler.emit_err] at hok
    | ok tps =>
      refine ⟨tps, rfl, ?_⟩
      by_cases hpe : param_errs env fd.parameters = []
      case neg =>
        simp [TyFunctionDecl.type_check, hdis, htp, check_parameters_loop_eq, hpe] at hok
      case pos =>
        cases hres : env.resolve_result <;> cases hbody : env.body_result
        all_goals
          simp only [TyFunctionDecl.type_check, hdis, htp, hpe, hres, hbody,
            check_parameters_loop_eq, unify_return_statements_eq, Bool.false_eq_true,
            if_false, if_true, Handler.emit_err, Engine.insert] at hok
        all_goals
          split at hok
        all_goals first
          | (simp at hok
             done)
          | (cases hbb : env.bounds_result with
             | error ce3 => simp [hbb] at hok
             | ok u =>
               simp only [hbb, Except.ok.injEq] at hok
               subst hok
               simp only [success_decl, checked_body, resolved_return_id, hres, hbody,
                 classify_visibility, classify_contract_call, TyFunctionDecl.mk.injEq,
                 TypeArgument.mk.injEq, List.nil_append]
               cases m <;> cases s <;> simp)

theorem type_check_param_failure_eq (env : Env) (h : Handler) (eng : Engine)
    (fd : FunctionDeclaration) (m s : Bool) (tps : List TyTypeParameter)
    (hdis : env.functions_disallowed = false)
    (htp : env.type_params_result = .ok tps)
    (hpe : param_errs env fd.parameters ≠ []) :
    TyFunctionDecl.type_check env h eng fd m s =
      ⟨{ snake_handler env h fd with
           errors := (snake_handler env h fd).errors ++ param_errs env fd.parameters },
       eng,
       [Event.scope_created, Event.type_params_checked] ++
         fd.parameters.map (fun _ => Event.param_checked),
       .error ⟨(snake_handler env h fd).errors.length +
         (param_errs env fd.parameters).length - 1⟩⟩ := by
  simp only [TyFunctionDecl.type_check, hdis, htp, check_parameters_loop_eq,
    Bool.false_eq_true, if_false, if_neg hpe, snake_handler]

/-- A baseline oracle assignment on which every stage succeeds. -/
def env0 : Env where
  functions_disallowed := false
  is_snake_case := fun _ => true
  abi_mode := .NonAbi
  type_params_result := .ok []
  param_result := fun p =>
    .ok { name := ⟨"p", p⟩, is_reference := false, is_mutable := false,
          mutability_span := 0, type_argument := ⟨0, 0, 0⟩ }
  resolve_result := .ok 0
  body_result := .ok (⟨[]⟩, 0)
  gather_return_statements := fun _ => []
  unify_with_self := fun _ _ => ([], [])
  bounds_result := .ok ()

/-- A baseline untyped declaration. -/
def fd0 : FunctionDeclaration where
  name := ⟨"main_fn", 1⟩
  body := 0
  parameters := []
  span := 2
  attributes := 3
  return_type := ⟨5, 6, 7⟩
  type_parameters := []
  visibility := .Private
  purity := .Reads
  where_clause := [4]

/-- An oracle assignment on which every parameter fails to bind. -/
def envC1 : Env := { env0 with param_result := fun p => .error (.Other p) }

/-- A declaration with two parameters, both of which will fail to bind. -/
def fdC1 : FunctionDeclaration := { fd0 with parameters := [0, 1] }

/-- C1 (amended): during parameter binding, processing continues across all
parameters even if one fails — the sink ends up holding one recorded
diagnostic per failing parameter, in order — and after the full list is
processed, type_check re-raises the ticket of the LAST recorded failure
(the emission at index errors-before + number-of-failures - 1), aborting
the whole declaration with no typed declaration returned. The claim
originally said the first recorded ticket is re-raised, which the
counterexample refutes. -/
theorem type_check_param_binding_records_all_and_reraises_last
    (env : Env) (h : Handler) (eng : Engine)
    (fd : FunctionDeclaration) (m s : Bool) (tps : List TyTypeParameter)
    (hdis : env.functions_disallowed = false)
    (htp : env.type_params_result = .ok tps)
    (hpe : param_errs env fd.parameters ≠ []) :
    (TyFunctionDecl.type_check env h eng fd m s).handler.errors =
        h.errors ++ param_errs env fd.parameters ∧
      (TyFunctionDecl.type_check env h eng fd m s).res =
        .error ⟨h.errors.length + (param_errs env fd.parameters).length - 1⟩ := by
  rw [type_check_param_failure_eq env h eng fd m s tps hdis htp hpe]
  exact ⟨by simp [snake_handler_errors], by simp [snake_handler_errors]⟩

/-- C1 (counterexample): with two failing parameters, the first recorded
ticket is the emission at index 0, but type_check re-raises the ticket of
the second (last) failure, at index 1. -/
theorem type_check_param_binding_first_ticket_cex :
    (TyFunctionDecl.type_check envC1 ⟨[], []⟩ [] fdC1 false false).handler.errors =
        [CompileError.Other 0, CompileError.Other 1] ∧
      (TyFunctionDecl.type_check envC1 ⟨[], []⟩ [] fdC1 false false).res =
        Except.error ⟨1⟩ ∧
      (TyFunctionDecl.type_check envC1 ⟨[], []⟩ [] fdC1 false false).res ≠
        Except.error ⟨0⟩ := by
  refine ⟨?_, ?_, ?_⟩ <;> decide

/-- C1 (witness): the amended theorem applied to the two-failure input. -/
theorem type_check_param_binding_records_all_and_reraises_last_witness :
    (TyFunctionDecl.type_check envC1 ⟨[], []⟩ [] fdC1 false false).handler.errors =
        (⟨[], []⟩ : Handler).errors ++ param_errs envC1 fdC1.parameters ∧
      (TyFunctionDecl.type_check envC1 ⟨[], []⟩ [] fdC1 false false).res =
        .error ⟨(⟨[], []⟩ : Handler).errors.length +
          (param_errs envC1 fdC1.parameters).length - 1⟩ :=
  type_check_param_binding_records_all_and_reraises_last envC1 ⟨[], []⟩ [] fdC1
    false false [] (by decide) (by decide) (by decide)

theorem unify_warns_eq_nil (env : Env) (rt : TypeId) (stmts : List TyExpression)
    (hu : ∀ st, (env.unify_with_self st rt).1 = []) :
    unify_warns env rt stmts = [] := by
  induction stmts with
  | nil => simp [unify_warns]
  | cons st rest ih => rw [unify_warns_cons, hu, ih]; rfl

/-- C2: unify_return_statements walks the entire statement list even after
a failure — the final sink holds every unification error of every failing
statement, in order, and every unification warning regardless of success
or failure — and it returns Err exactly when some statement failed,
carrying the ticket of the last emitted error (emission index
errors-before + total-errors - 1, produced while processing the last
failing statement), Ok otherwise. -/
theorem unify_return_statements_policy (env : Env) (h : Handler)
    (stmts : List TyExpression) (rt : TypeId) :
    unify_return_statements env h stmts rt =
      ({ errors := h.errors ++ unify_errs env rt stmts,
         warnings := h.warnings ++ unify_warns env rt stmts },
       if unify_errs env rt stmts = [] then Except.ok ()
       else Except.error ⟨h.errors.length + (unify_errs env rt stmts).length - 1⟩) :=
  unify_return_statements_eq env h stmts rt

/-- C3: on a run where every stage succeeds, the produced declaration is
classified per the decision table of lines 132 to 140: a method inside its
inherent implementation keeps the declared visibility and is not
externally callable; a method outside it is forced Public and is not
externally callable; a free function keeps the declared visibility and is
externally callable exactly when the scope abi mode is an abi
implementation. -/
theorem type_check_visibility_abi_classification (env : Env) (h : Handler)
    (eng : Engine) (fd : FunctionDeclaration) (m s : Bool)
    (tps : List TyTypeParameter)
    (hdis : env.functions_disallowed = false)
    (htp : env.type_params_result = .ok tps)
    (hpe : param_errs env fd.parameters = [])
    (hu : ∀ st rt, (env.unify_with_self st rt).2 = [])
    (hb : env.bounds_result = .ok ()) :
    ∃ d, (TyFunctionDecl.type_check env h eng fd m s).res = .ok d ∧
      d.visibility =
        (if m then (if s then fd.visibility else .Public) else fd.visibility) ∧
      d.is_contract_call = (if m then false else env.abi_mode.is_impl_abi_fn) := by
  rw [type_check_success_eq env h eng fd m s tps hdis htp hpe hu hb]
  exact ⟨success_decl env eng fd m s tps, rfl,
    by simp [success_decl, classify_visibility],
    by simp [success_decl, classify_contract_call]⟩

/-- An oracle assignment whose scope is inside an abi implementation. -/
def envC3 : Env := { env0 with abi_mode := .ImplAbiFn ⟨"my_abi", 9⟩ }

/-- C3 (witness): a method outside its inherent implementation is forced
Public and not externally callable even though declared Private and the
scope is an abi implementation; a free function in the same scope keeps
Private and is externally callable. -/
theorem type_check_visibility_abi_classification_witness :
    (∃ d, (TyFunctionDecl.type_check envC3 ⟨[], []⟩ [] fd0 true false).res = .ok d ∧
       d.visibility = Visibility.Public ∧ d.is_contract_call = false) ∧
      ∃ d, (TyFunctionDecl.type_check envC3 ⟨[], []⟩ [] fd0 false false).res = .ok d ∧
        d.visibility = Visibility.Private ∧ d.is_contract_call = true :=
  ⟨type_check_visibility_abi_classification envC3 ⟨[], []⟩ [] fd0 true false []
      rfl rfl (by decide) (fun _ _ => rfl) rfl,
    type_check_visibility_abi_classification envC3 ⟨[], []⟩ [] fd0 false false []
      rfl rfl (by decide) (fun _ _ => rfl) rfl⟩

/-- C4: when the declared return type fails to resolve, type_check does
not abort — the body checking stage still runs, the run still returns a
typed declaration (given the later stages succeed), that declaration
carries the checked body, its return type identifier points at the
ErrorRecovery descriptor interned in the final engine, and a failing body
check yields the empty substituted body rather than an absent one. -/
theorem type_check_return_type_error_containment (env : Env) (h : Handler)
    (eng : Engine) (fd : FunctionDeclaration) (m s : Bool)
    (tps : List TyTypeParameter) (ce : CompileError)
    (hdis : env.functions_disallowed = false)
    (htp : env.type_params_result = .ok tps)
    (hpe : param_errs env fd.parameters = [])
    (hres : env.resolve_result = .error ce)
    (hu : ∀ st rt, (env.unify_with_self st rt).2 = [])
    (hb : env.bounds_result = .ok ()) :
    Event.body_checked ∈ (TyFunctionDecl.type_check env h eng fd m s).trace ∧
      ∃ d, (TyFunctionDecl.type_check env h eng fd m s).res = .ok d ∧
        ((TyFunctionDecl.type_check env h eng fd m s).engine)[d.return_type.type_id]? =
          some TypeInfo.ErrorRecovery ∧
        d.body = checked_body env ∧
        ∀ ce2, env.body_result = .error ce2 → d.body = TyCodeBlock.mk [] := by
  rw [type_check_success_eq env h eng fd m s tps hdis htp hpe hu hb]
  refine ⟨by simp [full_trace], success_decl env eng fd m s tps, rfl, ?_,
    by simp [success_decl], ?_⟩
  · have h1 : (success_decl env eng fd m s tps).return_type.type_id = eng.length := by
      simp [success_decl, resolved_return_id, hres]
    rw [h1]
    show (eng ++ resolve_engine_list env ++ body_engine_list env)[eng.length]? =
      some TypeInfo.ErrorRecovery
    rw [show resolve_engine_list env = [TypeInfo.ErrorRecovery] from by
      simp [resolve_engine_list, hres], List.append_assoc]
    exact getElem?_append_cons eng _ .ErrorRecovery
  · intro ce2 hb2
    simp [success_decl, checked_body, hb2]

/-- An oracle assignment on which return-type resolution fails. -/
def envC4 : Env := { env0 with resolve_result := .error (.Other 7) }

/-- C4 (witness): the containment theorem applied to a concrete run whose
return-type resolution fails. -/
theorem type_check_return_type_error_containment_witness :
    Event.body_checked ∈ (TyFunctionDecl.type_check envC4 ⟨[], []⟩ [] fd0 false false).trace ∧
      ∃ d, (TyFunctionDecl.type_check envC4 ⟨[], []⟩ [] fd0 false false).res = .ok d ∧
        ((TyFunctionDecl.type_check envC4 ⟨[], []⟩ [] fd0 false false).engine)[d.return_type.type_id]? =
          some TypeInfo.ErrorRecovery ∧
        d.body = checked_body envC4 ∧
        ∀ ce2, envC4.body_result = .error ce2 → d.body = TyCodeBlock.mk [] :=
  type_check_return_type_error_containment envC4 ⟨[], []⟩ [] fd0 false false []
    (.Other 7) rfl rfl (by decide) rfl (fun _ _ => rfl) rfl

/-- C5 (amended): a generic bound violation on the resolved return type is
NOT degraded to ErrorRecovery — unlike a return-type resolution failure,
the bounds check at lines 142 to 147 re-raises its ticket with the
question-mark operator, aborting the whole declaration: on an otherwise
clean run whose bounds check fails, type_check returns that ticket and the
bound diagnostic is the only recorded error. -/
theorem type_check_bound_violation_aborts (env : Env) (h : Handler)
    (eng : Engine) (fd : FunctionDeclaration) (m s : Bool)
    (tps : List TyTypeParameter) (tid : TypeId) (bi : TyCodeBlock × TypeId)
    (ce : CompileError)
    (hdis : env.functions_disallowed = false)
    (htp : env.type_params_result = .ok tps)
    (hpe : param_errs env fd.parameters = [])
    (hres : env.resolve_result = .ok tid)
    (hbody : env.body_result = .ok bi)
    (hu : ∀ st rt, (env.unify_with_self st rt).2 = [])
    (hb : env.bounds_result = .error ce) :
    (TyFunctionDecl.type_check env h eng fd m s).res = .error ⟨h.errors.length⟩ ∧
      (TyFunctionDecl.type_check env h eng fd m s).handler.errors = h.errors ++ [ce] := by
  have hue : ∀ rt stmts, unify_errs env rt stmts = [] := fun rt stmts =>
    unify_errs_eq_nil env rt stmts (fun st => hu st rt)
  simp only [TyFunctionDecl.type_check, hdis, htp, hpe, hres, hbody, hb,
    check_parameters_loop_eq, unify_return_statements_eq, hue, Bool.false_eq_true,
    if_false, if_true, Handler.emit_err, List.append_nil]
  cases hsn : env.is_snake_case fd.name.as_str <;>
    simp [hsn, Handler.emit_warn]

/-- An oracle assignment on which only the bounds check fails. -/
def envC5 : Env := { env0 with bounds_result := .error (.Other 3) }

/-- C5 (counterexample): on a run where the only failure is the generic
bound violation on the resolved return type, type_check aborts with the
bound ticket — it does not degrade to ErrorRecovery and continue to a
typed declaration as the claim states. -/
theorem type_check_bound_violation_cex :
    (TyFunctionDecl.type_check envC5 ⟨[], []⟩ [] fd0 false false).res =
        Except.error ⟨0⟩ ∧
      (TyFunctionDecl.type_check envC5 ⟨[], []⟩ [] fd0 false false).handler.errors =
        [CompileError.Other 3] := by
  constructor <;> decide

/-- C5 (witness): the amended theorem applied to the concrete
bound-violation run. -/
theorem type_check_bound_violation_aborts_witness :
    (TyFunctionDecl.type_check envC5 ⟨[], []⟩ [] fd0 false false).res =
        .error ⟨(⟨[], []⟩ : Handler).errors.length⟩ ∧
      (TyFunctionDecl.type_check envC5 ⟨[], []⟩ [] fd0 false false).handler.errors =
        (⟨[], []⟩ : Handler).errors ++ [.Other 3] :=
  type_check_bound_violation_aborts envC5 ⟨[], []⟩ [] fd0 false false []
    0 (⟨[]⟩, 0) (.Other 3) rfl rfl (by decide) rfl rfl (fun _ _ => rfl) rfl

/-- C6: if functions are disallowed in the current context, type_check
emits exactly the structural nesting error and returns its ticket, with no
typed declaration; the trace is empty — no scope creation, parameter
binding, or body checking happened — the engine is untouched and no
warning is emitted. -/
theorem type_check_functions_disallowed_structural (env : Env) (h : Handler)
    (eng : Engine) (fd : FunctionDeclaration) (m s : Bool)
    (hdis : env.functions_disallowed = true) :
    TyFunctionDecl.type_check env h eng fd m s =
      ⟨{ h with errors := h.errors ++
           [.Unimplemented "Nested function definitions are not allowed at this time." fd.span] },
       eng, [], .error ⟨h.errors.length⟩⟩ := by
  simp [TyFunctionDecl.type_check, hdis, Handler.emit_err]

/-- An oracle assignment whose context disallows functions. -/
def envC6 : Env := { env0 with functions_disallowed := true }

/-- C6 (witness): the structural-abort theorem applied concretely. -/
theorem type_check_functions_disallowed_structural_witness :
    TyFunctionDecl.type_check envC6 ⟨[], []⟩ [] fd0 false false =
      ⟨{ errors := [.Unimplemented "Nested function definitions are not allowed at this time." 2],
         warnings := [] }, [], [], .error ⟨0⟩⟩ :=
  type_check_functions_disallowed_structural envC6 ⟨[], []⟩ [] fd0 false false rfl

/-- C7: a declaration whose name violates the snake-case style check gets
exactly one warning, for that name, and the warning alone never fails the
check: on a run where nothing else emits, the final sink holds that single
added warning and type_check still returns a typed declaration. -/
theorem type_check_non_snake_case_single_warning (env : Env) (h : Handler)
    (eng : Engine) (fd : FunctionDeclaration) (m s : Bool)
    (tps : List TyTypeParameter)
    (hdis : env.functions_disallowed = false)
    (htp : env.type_params_result = .ok tps)
    (hpe : param_errs env fd.parameters = [])
    (hsnake : env.is_snake_case fd.name.as_str = false)
    (hu : ∀ st rt, env.unify_with_self st rt = ([], []))
    (hb : env.bounds_result = .ok ()) :
    (TyFunctionDecl.type_check env h eng fd m s).handler.warnings =
        h.warnings ++ [⟨fd.name.span, .NonSnakeCaseFunctionName fd.name⟩] ∧
      ∃ d, (TyFunctionDecl.type_check env h eng fd m s).res = .ok d := by
  have hu2 : ∀ st rt, (env.unify_with_self st rt).2 = [] := fun st rt => by rw [hu]
  rw [type_check_success_eq env h eng fd m s tps hdis htp hpe hu2 hb]
  constructor
  · have hw : ∀ rt stmts, unify_warns env rt stmts = [] := fun rt stmts =>
      unify_warns_eq_nil env rt stmts (fun st => by rw [hu])
    simp [snake_handler, hsnake, Handler.emit_warn, hw]
  · exact ⟨_, rfl⟩

/-- An oracle assignment whose style predicate rejects every name. -/
def envC7 : Env := { env0 with is_snake_case := fun _ => false }

/-- C7 (witness): the single-warning theorem applied concretely. -/
theorem type_check_non_snake_case_single_warning_witness :
    (TyFunctionDecl.type_check envC7 ⟨[], []⟩ [] fd0 false false).handler.warnings =
        (⟨[], []⟩ : Handler).warnings ++
          [⟨fd0.name.span, .NonSnakeCaseFunctionName fd0.name⟩] ∧
      ∃ d, (TyFunctionDecl.type_check envC7 ⟨[], []⟩ [] fd0 false false).res = .ok d :=
  type_check_non_snake_case_single_warning envC7 ⟨[], []⟩ [] fd0 false false []
    rfl rfl (by decide) rfl (fun _ _ => rfl) rfl

/-- The engine of the selector unit test: identifier 0 is the
fixed-length-string(5) descriptor and identifier 1 the unsigned-32
descriptor. -/
def engSel : Engine := [.Str 5, .UnsignedInteger .ThirtyTwo]

/-- The parameterless declaration named foo of the selector unit test. -/
def fooDecl : TyFunctionDecl where
  name := ⟨"foo", 0⟩
  body := ⟨[]⟩
  parameters := []
  implementing_type := none
  span := 0
  attributes := 0
  return_type := ⟨0, 0, 0⟩
  type_parameters := []
  visibility := .Public
  is_contract_call := false
  purity := .Pure
  where_clause := []

/-- The declaration named bar of the selector unit test: first parameter
resolved to string(5); second parameter resolved to unsigned-32 but with
initial identifier still pointing at string(5). -/
def barDecl : TyFunctionDecl where
  name := ⟨"bar", 0⟩
  body := ⟨[]⟩
  parameters :=
    [{ name := ⟨"foo", 0⟩, is_reference := false, is_mutable := false,
       mutability_span := 0, type_argument := ⟨0, 0, 0⟩ },
     { name := ⟨"baz", 0⟩, is_reference := false, is_mutable := false,
       mutability_span := 0, type_argument := ⟨1, 0, 0⟩ }]
  implementing_type := none
  span := 0
  attributes := 0
  return_type := ⟨0, 0, 0⟩
  type_parameters := []
  visibility := .Public
  is_contract_call := false
  purity := .Pure
  where_clause := []

/-- C8: a parameterless function named foo encodes to exactly "foo()". -/
theorem selector_foo_no_params : to_selector_name engSel fooDecl = .ok "foo()" := by
  decide

theorem params_types_set_initial (eng : Engine) (f : TyFunctionParameter → TypeId)
    (ps : List TyFunctionParameter) :
    params_types eng (ps.map (set_initial_type_id f)) = params_types eng ps := by
  induction ps with
  | nil => rfl
  | cons p rest ih => simp [params_types, set_initial_type_id, ih]

/-- C9: the bar declaration whose parameters resolve to
fixed-length-string(5) and unsigned-32 encodes to exactly
"bar(str[5],u32)" — the second parameter still carries string(5) as its
initial identifier, yet u32 is printed — and in general rewriting the
initial type identifiers of the parameters never changes the selector:
only the resolved identifiers matter. -/
theorem selector_uses_resolved_descriptor_only :
    to_selector_name engSel barDecl = .ok "bar(str[5],u32)" ∧
      ∀ (eng : Engine) (f : TyFunctionParameter → TypeId) (d : TyFunctionDecl),
        to_selector_name eng (set_initial_type_ids f d) = to_selector_name eng d := by
  refine ⟨by decide, ?_⟩
  intro eng f d
  simp [to_selector_name, set_initial_type_ids, params_types_set_initial]

/-- C10: whenever type_check returns Ok, the typed declaration has no
implementing type, and its name, span, attributes, purity and where
clause are exactly those of the untyped input. -/
theorem type_check_frame_preservation (env : Env) (h : Handler) (eng : Engine)
    (fd : FunctionDeclaration) (m s : Bool) (d : TyFunctionDecl)
    (hok : (TyFunctionDecl.type_check env h eng fd m s).res = .ok d) :
    d.implementing_type = none ∧ d.name = fd.name ∧ d.span = fd.span ∧
      d.attributes = fd.attributes ∧ d.purity = fd.purity ∧
      d.where_clause = fd.where_clause := by
  obtain ⟨tps, -, rfl⟩ := type_check_ok_inv env h eng fd m s d hok
  simp [success_decl]

/-- C10 (witness): the frame theorem applied to a concrete successful
run. -/
theorem type_check_frame_preservation_witness :
    (success_decl env0 [] fd0 false false []).implementing_type = none ∧
      (success_decl env0 [] fd0 false false []).name = fd0.name ∧
      (success_decl env0 [] fd0 false false []).span = fd0.span ∧
      (success_decl env0 [] fd0 false false []).attributes = fd0.attributes ∧
      (success_decl env0 [] fd0 false false []).purity = fd0.purity ∧
      (success_decl env0 [] fd0 false false []).where_clause = fd0.where_clause :=
  type_check_frame_preservation env0 ⟨[], []⟩ [] fd0 false false
    (success_decl env0 [] fd0 false false []) (by decide)
